import Mathlib

/-!
# Verification of the Blog-2 client store and API routes

Shallow embedding of the parts of the repository the claims concern:

* `src/store/blogSlice.ts` — the normalized blog cache (entities / ids /
  filteredIds), the filter reducers (`setSelectedTag`, `setSelectedTopic`,
  `setSearchQuery`), the TTL query cache consulted by the `fetchBlogs` /
  `fetchFilteredBlogs` thunks, and the optimistic-create rollback.
* `src/store/tagSlice.ts` — the analogous `fetchBlogs.fulfilled` merge on
  `blogIds`.
* the blogs API route (`GET`/`POST`/`PATCH`) and its
  `validateTagsAndTopics` helper.
* the search and topics API routes' zod query transforms (page/limit
  clamping).
* the two infinite-scroll sentinel handlers.

JavaScript objects keyed by id are modelled as functions `String → Option Blog`
(key insertion order is not observable by any claim).  JavaScript `Set`
insertion order is modelled by `jsSetDedup`.  Machine numbers are `Int`
(the relevant arithmetic never overflows a double's exact-integer range).
-/

namespace Blog2

/-! ## JavaScript primitives -/

/-- JS `s.startsWith(p)`: `p` is a prefix of `s` (exact code-unit prefix). -/
def jsStartsWith (s p : String) : Bool := p.data.isPrefixOf s.data

/-- JS `hay.includes(needle)` on strings: substring containment. -/
def jsIncludesStr (hay needle : String) : Bool := decide (needle.data <:+: hay.data)

/-- JS `x || ""` for an optional string: `undefined` and `""` both give `""`. -/
def jsOrStr (v : Option String) : String := v.getD ""

/-- JS `x || d` for an optional string: `undefined` and `""` both fall back. -/
def jsOrStrD (v : Option String) (d : String) : String :=
  match v with
  | some s => if s = "" then d else s
  | none => d

/-- JS `x || d` for an optional number: `undefined` and `0` both fall back. -/
def jsOrInt (v : Option Int) (d : Int) : Int :=
  match v with
  | some n => if n = 0 then d else n
  | none => d

/-- JS truthiness of an optional string: `undefined` and `""` are falsy. -/
def truthyStr : Option String → Bool
  | none => false
  | some s => !(s == "")

/-- JS `s.trim()`: strip leading and trailing whitespace. -/
def jsTrim (s : String) : String :=
  ⟨((s.data.dropWhile Char.isWhitespace).reverse.dropWhile Char.isWhitespace).reverse⟩

/-! ## JS `Set`-based deduplication (`[...new Set([...ids, ...newIds])]`) -/

/-- One step of JS `Set` insertion: append `x` unless already present. -/
def insertUnseen (acc : List String) (x : String) : List String :=
  if x ∈ acc then acc else acc ++ [x]

/-- `[...new Set(l)]`: first-seen-order deduplication of `l`. -/
def jsSetDedup (l : List String) : List String := l.foldl insertUnseen []

theorem mem_insertUnseen {y : String} {acc : List String} {x : String} :
    y ∈ insertUnseen acc x ↔ y ∈ acc ∨ y = x := by
  unfold insertUnseen
  split
  · constructor
    · exact fun h => Or.inl h
    · rintro (h | rfl) <;> assumption
  · simp [List.mem_append]

theorem mem_foldl_insertUnseen {y : String} :
    ∀ (xs acc : List String), y ∈ xs.foldl insertUnseen acc ↔ y ∈ acc ∨ y ∈ xs := by
  intro xs
  induction xs with
  | nil => simp
  | cons x xs ih =>
    intro acc
    simp only [List.foldl_cons, ih, mem_insertUnseen, List.mem_cons]
    tauto

theorem nodup_insertUnseen {acc : List String} (h : acc.Nodup) (x : String) :
    (insertUnseen acc x).Nodup := by
  unfold insertUnseen
  split
  · exact h
  · simpa [List.nodup_append, h] using fun hx => by simp_all

theorem nodup_foldl_insertUnseen :
    ∀ (xs acc : List String), acc.Nodup → (xs.foldl insertUnseen acc).Nodup := by
  intro xs
  induction xs with
  | nil => intro acc h; simpa using h
  | cons x xs ih =>
    intro acc h
    exact ih _ (nodup_insertUnseen h x)

theorem prefix_foldl_insertUnseen :
    ∀ (xs acc : List String), acc <+: xs.foldl insertUnseen acc := by
  intro xs
  induction xs with
  | nil => intro acc; simp
  | cons x xs ih =>
    intro acc
    refine List.IsPrefix.trans ?_ (ih (insertUnseen acc x))
    unfold insertUnseen
    split
    · exact List.prefix_refl _
    · exact ⟨[x], rfl⟩

theorem foldl_insertUnseen_of_fresh :
    ∀ (xs acc : List String), (∀ y ∈ xs, y ∉ acc) → xs.Nodup →
      xs.foldl insertUnseen acc = acc ++ xs := by
  intro xs
  induction xs with
  | nil => simp
  | cons x xs ih =>
    intro acc hfresh hnod
    have hx : x ∉ acc := hfresh x (by simp)
    have hstep : insertUnseen acc x = acc ++ [x] := by simp [insertUnseen, hx]
    rw [List.foldl_cons, hstep, ih (acc ++ [x])]
    · simp
    · intro y hy
      simp only [List.mem_append, List.mem_singleton]
      rintro (h | rfl)
      · exact hfresh y (by simp [hy]) h
      · exact (List.nodup_cons.mp hnod).1 hy
    · exact (List.nodup_cons.mp hnod).2

theorem jsSetDedup_of_nodup {l : List String} (h : l.Nodup) : jsSetDedup l = l := by
  unfold jsSetDedup
  simpa using foldl_insertUnseen_of_fresh l [] (by simp) h

theorem foldl_insertUnseen_of_subset :
    ∀ (xs acc : List String), (∀ y ∈ xs, y ∈ acc) → xs.foldl insertUnseen acc = acc := by
  intro xs
  induction xs with
  | nil => simp
  | cons x xs ih =>
    intro acc hsub
    have hx : x ∈ acc := hsub x (by simp)
    have hstep : insertUnseen acc x = acc := by simp [insertUnseen, hx]
    rw [List.foldl_cons, hstep]
    exact ih acc (fun y hy => hsub y (by simp [hy]))

theorem jsSetDedup_append {l r : List String} (h : l.Nodup) :
    jsSetDedup (l ++ r) = r.foldl insertUnseen l := by
  unfold jsSetDedup
  rw [List.foldl_append]
  congr 1
  simpa using foldl_insertUnseen_of_fresh l [] (by simp) h

/-! ## Data model (`Blog` record, pagination, cache entries) -/

/-- A blog record as stored by the API and the client slices. -/
structure Blog where
  id : String
  slug : String
  title : String
  subTitle : String
  content : String
  bannerUrl : String
  video : Option String
  tags : List String
  topics : List String
  createdAt : Int
  updatedAt : Int
deriving DecidableEq

/-- `{ currentPage, totalPages, totalBlogs }` as returned by the blogs API. -/
structure Pagination where
  currentPage : Int
  totalPages : Int
  totalBlogs : Int
deriving DecidableEq

/-- One entry of the per-slice TTL query cache. -/
structure CacheEntry where
  ids : List String
  timestamp : Int
deriving DecidableEq

/-- `const CACHE_DURATION = 5 * 60 * 1000` (milliseconds). -/
def CACHE_DURATION : Int := 5 * 60 * 1000

/-- `cache && Date.now() - cache.timestamp < CACHE_DURATION`. -/
def cacheFresh (entry : Option CacheEntry) (now : Int) : Bool :=
  match entry with
  | some e => decide (now - e.timestamp < CACHE_DURATION)
  | none => false

/-- Async-thunk status field values. -/
inductive Status where
  | idle
  | loading
  | succeeded
  | failed
deriving DecidableEq

/-! ## normalizr (`normalize(blogs, blogListSchema)`) -/

/-- `normalized.entities.blogs`: id-keyed map; for duplicate ids the last
record wins (JS object assignment order). -/
def normEntities (blogs : List Blog) : String → Option Blog :=
  fun k => blogs.reverse.find? (fun b => b.id == k)

/-- `normalized.result`: the id of every input record, in input order. -/
def normResult (blogs : List Blog) : List String := blogs.map (·.id)

/-- JS object spread `{ ...old, ...new }` viewed as a map: `new` wins. -/
def mergeEntities (old new : String → Option Blog) : String → Option Blog :=
  fun k =>
    match new k with
    | some b => some b
    | none => old k

theorem mergeEntities_idem (e n : String → Option Blog) :
    mergeEntities (mergeEntities e n) n = mergeEntities e n := by
  funext k
  unfold mergeEntities
  cases n k <;> rfl

/-- JS object update `cache[key] = entry`. -/
def updateCache (c : String → Option CacheEntry) (k : String) (e : CacheEntry) :
    String → Option CacheEntry :=
  fun k' => if k' = k then some e else c k'

/-! ## `blogSlice` state and reducers (src/store/blogSlice.ts) -/

/-- The four per-thunk status fields of `BlogState.status`. -/
structure BlogStatus where
  fetchBlogs : Status
  fetchSlugBlog : Status
  fetchFilteredBlogs : Status
  createBlog : Status
deriving DecidableEq

/-- The four per-thunk error fields of `BlogState.error`. -/
structure BlogError where
  fetchBlogs : Option String
  fetchSlugBlog : Option String
  createBlog : Option String
  fetchFilteredBlogs : Option String
deriving DecidableEq

/-- `BlogState` of `blogSlice`; `entities.blogs` and `cache` are id/key-indexed
maps, modelled as functions. -/
structure BlogState where
  entities : String → Option Blog
  ids : List String
  slugBlogId : Option String
  filteredIds : List String
  selectedTag : Option String
  selectedTopic : Option String
  searchQuery : Option String
  status : BlogStatus
  error : BlogError
  pagination : Pagination
  cache : String → Option CacheEntry

/-- `fetchBlogs`/`fetchFilteredBlogs` payload `{ blogs, pagination }`. -/
structure FetchPayload where
  blogs : List Blog
  pagination : Pagination
deriving DecidableEq

/-- `setSelectedTag`: sets `selectedTag` and recomputes `filteredIds` as the
ids whose entity's tag list contains the payload.  (JS `includes(null)` is
`false`; a dangling id would throw in JS and is modelled as not matching —
the claims only use states satisfying the no-dangling invariant.) -/
def setSelectedTag (s : BlogState) (payload : Option String) : BlogState :=
  { s with
    selectedTag := payload
    filteredIds := s.ids.filter (fun id =>
      match s.entities id with
      | some b =>
        match payload with
        | some t => b.tags.contains t
        | none => false
      | none => false) }

/-- `setSelectedTopic`: symmetric to `setSelectedTag` on `topics`. -/
def setSelectedTopic (s : BlogState) (payload : Option String) : BlogState :=
  { s with
    selectedTopic := payload
    filteredIds := s.ids.filter (fun id =>
      match s.entities id with
      | some b =>
        match payload with
        | some t => b.topics.contains t
        | none => false
      | none => false) }

/-- `setSearchQuery`: for a truthy payload filter by case-insensitive
title/subTitle substring, otherwise reset `filteredIds` to `ids`. -/
def setSearchQuery (s : BlogState) (payload : Option String) : BlogState :=
  if truthyStr payload then
    let q := (payload.getD "").toLower
    { s with
      searchQuery := payload
      filteredIds := s.ids.filter (fun id =>
        match s.entities id with
        | some b => jsIncludesStr b.title.toLower q || jsIncludesStr b.subTitle.toLower q
        | none => false) }
  else
    { s with searchQuery := payload, filteredIds := s.ids }

/-- Cache key built inside the `fetchBlogs` thunk:
`` `blogs:${page}:${limit}:${tag || ""}:${topic || ""}:${query || ""}` ``. -/
def blogsCacheKey (page limit : Int) (tag topic query : Option String) : String :=
  "blogs:" ++ toString page ++ ":" ++ toString limit ++ ":" ++ jsOrStr tag ++ ":"
    ++ jsOrStr topic ++ ":" ++ jsOrStr query

/-- Cache key built inside the `fetchFilteredBlogs` thunk:
`` `filter:tag:${tag || ""}:topic:${topic || ""}:${page}:${limit}` ``. -/
def filteredCacheKey (tag topic : Option String) (page limit : Int) : String :=
  "filter:tag:" ++ jsOrStr tag ++ ":topic:" ++ jsOrStr topic ++ ":"
    ++ toString page ++ ":" ++ toString limit

/-- What a thunk does before dispatching `fulfilled`: either a network request
or a short-circuit payload returned without touching the network. -/
inductive FetchDecision where
  | shortCircuit (payload : FetchPayload)
  | network
deriving DecidableEq

/-- The `fetchBlogs` thunk body: destructuring defaults `page = 1, limit = 10`
(applied only when the argument is absent), then the cache lookup; a fresh hit
returns `{ blogs: [], pagination: getState().blog.pagination }` with no fetch. -/
def fetchBlogsThunk (s : BlogState) (now : Int) (page limit : Option Int)
    (tag topic query : Option String) : FetchDecision :=
  if cacheFresh (s.cache (blogsCacheKey (page.getD 1) (limit.getD 10) tag topic query)) now then
    .shortCircuit ⟨[], s.pagination⟩
  else
    .network

/-- The `fetchFilteredBlogs` thunk's decision.  On a fresh hit the code
returns `{ blogs: [], pagination: [] }` — the `pagination` value is an
(ill-typed) empty array, which the fulfilled reducer never reads because
`blogs` is empty; the short-circuit constructor therefore carries no payload. -/
inductive FilteredDecision where
  | shortCircuitEmpty
  | network
deriving DecidableEq

/-- The `fetchFilteredBlogs` thunk body (destructuring defaults
`page = 1, limit = 10`). -/
def fetchFilteredBlogsThunk (s : BlogState) (now : Int) (tag topic : Option String)
    (page limit : Option Int) : FilteredDecision :=
  if cacheFresh (s.cache (filteredCacheKey tag topic (page.getD 1) (limit.getD 10))) now then
    .shortCircuitEmpty
  else
    .network

/-- `fetchBlogs.fulfilled`: merge entities, record the query-cache entry under
the key rebuilt from `action.meta.arg` (with `||` defaults), extend `ids` via
`[...new Set([...state.ids, ...normalized.result])]`, mirror into
`filteredIds`, and adopt the payload's pagination.  An empty payload only sets
status and pagination. -/
def blogsFulfilled (s : BlogState) (argPage argLimit : Option Int)
    (argTag argTopic argQuery : Option String) (payload : FetchPayload)
    (now : Int) : BlogState :=
  let s := { s with status := { s.status with fetchBlogs := .succeeded } }
  if payload.blogs.length > 0 then
    let result := normResult payload.blogs
    let key := blogsCacheKey (jsOrInt argPage 1) (jsOrInt argLimit 10) argTag argTopic argQuery
    let ids' := jsSetDedup (s.ids ++ result)
    { s with
      entities := mergeEntities s.entities (normEntities payload.blogs)
      cache := updateCache s.cache key ⟨result, now⟩
      ids := ids'
      filteredIds := ids'
      pagination := payload.pagination }
  else
    { s with pagination := payload.pagination }

/-- `fetchFilteredBlogs.fulfilled`: for a non-empty payload, merge the records
into `entities`, *replace* `filteredIds` with the payload's ids, and adopt the
payload's pagination; for an empty payload only the status changes (the cache
branches in the source are commented out). -/
def filteredFulfilled (s : BlogState) (blogs : List Blog) (pagination : Pagination) :
    BlogState :=
  let s := { s with status := { s.status with fetchFilteredBlogs := .succeeded } }
  if blogs.length > 0 then
    { s with
      entities := mergeEntities s.entities (normEntities blogs)
      filteredIds := blogs.map (·.id)
      pagination := pagination }
  else
    s

/-- `createBlog`'s argument object. -/
structure CreateBlogParams where
  title : String
  subTitle : String
  content : String
  bannerUrl : String
  slug : String
  video : Option String
  tags : List String
  topics : List String
deriving DecidableEq

/-- `createBlog.pending`: optimistic insert of a provisional record under
`` `temp-${Date.now()}` `` at the front of `ids` and `filteredIds`. -/
def createPending (s : BlogState) (args : CreateBlogParams) (now : Int) : BlogState :=
  let tempId := "temp-" ++ toString now
  let blog : Blog :=
    { id := tempId, slug := args.slug, title := args.title, subTitle := args.subTitle
      content := args.content, bannerUrl := args.bannerUrl, video := args.video
      tags := args.tags, topics := args.topics, createdAt := now, updatedAt := now }
  { s with
    status := { s.status with createBlog := .loading }
    error := { s.error with createBlog := none }
    entities := fun k => if k = tempId then some blog else s.entities k
    ids := tempId :: s.ids
    filteredIds := tempId :: s.filteredIds }

/-- `createBlog.rejected`: find the first id starting with `"temp-"` in `ids`
and remove it from `ids`, `filteredIds` and `entities`. -/
def createRejected (s : BlogState) (msg : String) : BlogState :=
  let s :=
    { s with
      status := { s.status with createBlog := .failed }
      error := { s.error with createBlog := some msg } }
  match s.ids.find? (fun id => jsStartsWith id "temp-") with
  | some tempId =>
    { s with
      ids := s.ids.filter (fun id => id != tempId)
      filteredIds := s.filteredIds.filter (fun id => id != tempId)
      entities := fun k => if k = tempId then none else s.entities k }
  | none => s

/-! ## `tagSlice` (src/store/tagSlice.ts) -/

/-- `tagSlice`'s pagination shape (includes `limit`). -/
structure TagPagination where
  currentPage : Int
  totalPages : Int
  totalBlogs : Int
  limit : Int
deriving DecidableEq

/-- The `tagSlice` state fields relevant to the `fetchBlogs.fulfilled` merge. -/
structure TagState where
  entities : String → Option Blog
  blogIds : List String
  selectedTags : List String
  availableTags : List String
  statusFetchBlogs : Status
  errorFetchBlogs : Option String
  pagination : TagPagination
  cache : String → Option CacheEntry

/-- `tag/fetchBlogs` payload. -/
structure TagFetchPayload where
  blogs : List Blog
  pagination : TagPagination
deriving DecidableEq

/-- `tagSlice`'s `fetchBlogs.fulfilled`: same normalized merge, cache write
under `` `tag:${arg.tag || "all"}:${arg.page || 1}:${arg.limit || 12}` `` and
`blogIds = [...new Set([...state.blogIds, ...normalized.result])]`. -/
def tagFulfilled (s : TagState) (argTag : Option String) (argPage argLimit : Option Int)
    (payload : TagFetchPayload) (now : Int) : TagState :=
  let s := { s with statusFetchBlogs := .succeeded }
  if payload.blogs.length > 0 then
    let result := normResult payload.blogs
    let key := "tag:" ++ jsOrStrD argTag "all" ++ ":" ++ toString (jsOrInt argPage 1)
      ++ ":" ++ toString (jsOrInt argLimit 12)
    { s with
      entities := mergeEntities s.entities (normEntities payload.blogs)
      cache := updateCache s.cache key ⟨result, now⟩
      blogIds := jsSetDedup (s.blogIds ++ result)
      pagination := payload.pagination }
  else
    { s with pagination := payload.pagination }

/-! ## Blogs API route: `validateTagsAndTopics`, `POST`, `PATCH`

The `Tags`/`Topics` enumerations come from the generated Prisma client, which
is not part of the source tree; following the spec ("tag/topic values must
belong to a fixed enumerated vocabulary (closed sets)"), the vocabulary is an
explicit parameter `validTags`/`validTopics` of each definition — in the code
it is the fixed list `Object.values(Tags)` / `Object.values(Topics)`. -/

/-- One half of `validateTagsAndTopics`: for an array input, trim each element
and keep those contained in the valid vocabulary (in input order); any
non-array input yields `[]`. -/
def parsedVocabList (valid : List String) (arr : Option (List String)) : List String :=
  match arr with
  | some l => (l.map jsTrim).filter (fun t => valid.contains t)
  | none => []

/-- `validateTagsAndTopics(tags, topics)` — both halves. -/
def validateTagsAndTopics (validTags validTopics : List String)
    (tags topics : Option (List String)) : List String × List String :=
  (parsedVocabList validTags tags, parsedVocabList validTopics topics)

/-- An API handler outcome: a blog payload or an error status with message. -/
inductive ApiResult where
  | ok (blog : Blog)
  | err (status : Nat) (msg : String)
deriving DecidableEq

/-- The JSON body accepted by `POST` (create).  `none` = field absent. -/
structure PostBody where
  title : Option String
  subTitle : Option String
  content : Option String
  bannerUrl : Option String
  slug : Option String
  video : Option String
  tags : Option (List String)
  topics : Option (List String)
deriving DecidableEq

/-- The record `POST` stores (id and timestamps assigned server-side). -/
def postBlog (validTags validTopics : List String) (body : PostBody)
    (newId : String) (now : Int) : Blog :=
  { id := newId, slug := body.slug.getD "", title := body.title.getD ""
    subTitle := body.subTitle.getD "", content := body.content.getD ""
    bannerUrl := body.bannerUrl.getD "", video := body.video
    tags := (validateTagsAndTopics validTags validTopics body.tags body.topics).1
    topics := (validateTagsAndTopics validTags validTopics body.tags body.topics).2
    createdAt := now, updatedAt := now }

/-- The `POST` handler over a database modelled as a list of records:
400 when a required field is missing/empty, 409 when the slug exists,
otherwise create with the validated tags/topics. -/
def apiPOST (validTags validTopics : List String) (db : List Blog)
    (body : PostBody) (newId : String) (now : Int) : ApiResult × List Blog :=
  if !truthyStr body.title || !truthyStr body.subTitle || !truthyStr body.content
      || !truthyStr body.bannerUrl || !truthyStr body.slug then
    (.err 400 "Missing required fields: title, subTitle, content, bannerUrl, slug", db)
  else
    match db.find? (fun b => b.slug == body.slug.getD "") with
    | some _ => (.err 409 "Blog with this slug already exists", db)
    | none =>
      let created := postBlog validTags validTopics body newId now
      (.ok created, db ++ [created])

/-- The JSON body accepted by `PATCH` (edit).  `none` = field absent
(`undefined`); JS `null` is not modelled. -/
structure PatchBody where
  title : Option String
  subTitle : Option String
  content : Option String
  bannerUrl : Option String
  video : Option String
  tags : Option (List String)
  topics : Option (List String)
deriving DecidableEq

/-- `if (field) blogData.field = field`: a truthy (present, non-empty) value
overwrites, anything else keeps the stored value. -/
def applyStrField (cur : String) (v : Option String) : String :=
  match v with
  | some s => if s == "" then cur else s
  | none => cur

/-- The `!title && !subTitle && ... && !tags && !topics` emptiness test.
An array value is always truthy in JS, so `tags`/`topics` count as empty only
when absent. -/
def emptyPatchBodyCheck (body : PatchBody) : Bool :=
  !truthyStr body.title && !truthyStr body.subTitle && !truthyStr body.content
    && !truthyStr body.bannerUrl && !truthyStr body.video
    && body.tags.isNone && body.topics.isNone

/-- The record stored by a successful `PATCH`: non-empty string fields
overwrite; `video` is written whenever it is present in the body
(`video !== undefined`), even when empty; tags/topics are replaced only when
at least one submitted value survives validation.  (Prisma's automatic
`updatedAt` touch is not modelled.) -/
def patchedBlog (validTags validTopics : List String) (existing : Blog)
    (body : PatchBody) : Blog :=
  let parsed := validateTagsAndTopics validTags validTopics body.tags body.topics
  { existing with
    title := applyStrField existing.title body.title
    subTitle := applyStrField existing.subTitle body.subTitle
    content := applyStrField existing.content body.content
    bannerUrl := applyStrField existing.bannerUrl body.bannerUrl
    video := if body.video.isSome then body.video else existing.video
    tags := if parsed.1.length > 0 then parsed.1 else existing.tags
    topics := if parsed.2.length > 0 then parsed.2 else existing.topics }

/-- The `PATCH` handler: 400 without a `slug` query parameter, 400 when every
body field is empty/absent, 404 when the slug is unknown, otherwise update the
matching record in place. -/
def apiPATCH (validTags validTopics : List String) (db : List Blog)
    (slugParam : Option String) (body : PatchBody) : ApiResult × List Blog :=
  match slugParam with
  | none => (.err 400 "Slug is required for editing", db)
  | some slug =>
    if emptyPatchBodyCheck body then
      (.err 400 "At least one field must be provided for update", db)
    else
      match db.find? (fun b => b.slug == slug) with
      | none => (.err 404 "Blog not found", db)
      | some existing =>
        let updated := patchedBlog validTags validTopics existing body
        (.ok updated, db.map (fun b => if b.slug == slug then updated else b))

/-! ## Infinite-scroll sentinels

Two components attach an `IntersectionObserver` to a load-more sentinel:

* the `Blogs` component's effect guards at attach time
  (`status loading || page >= pagination.totalPages → return` before creating
  the observer, and the effect cleanup disconnects it whenever the dependencies
  — including `page` and `totalPages` — change);
* the tags page's `handleObserver` callback re-checks
  `currentPage < totalPages` inside the (debounced) callback. -/

/-- The observable scroll state of the `Blogs` component: local `page`,
`pagination.totalPages`, the two loading flags, and whether an observer is
currently attached to the sentinel. -/
structure ScrollView where
  page : Int
  totalPages : Int
  loadingBlogs : Bool
  loadingFiltered : Bool
  observerAttached : Bool
deriving DecidableEq

/-- The `Blogs` infinite-scroll effect after React re-synchronizes it: the
previous observer is disconnected by the cleanup, and a new one is attached
only when nothing is loading and `page < totalPages`. -/
def syncScrollEffect (v : ScrollView) : ScrollView :=
  { v with
    observerAttached :=
      !(v.loadingBlogs || v.loadingFiltered) && decide (v.page < v.totalPages) }

/-- A sentinel intersection event: with an attached observer and an
intersecting entry, dispatch a fetch for `page + 1` (returned as `some page'`)
and advance the local page; otherwise nothing happens. -/
def sentinelIntersect (v : ScrollView) (isIntersecting : Bool) :
    Option Int × ScrollView :=
  if v.observerAttached && isIntersecting then
    (some (v.page + 1), { v with page := v.page + 1 })
  else
    (none, v)

/-- The tags page's `handleObserver` callback: dispatch a fetch for
`currentPage + 1` only when the entry intersects, nothing is loading, and
`currentPage < totalPages`. -/
def handleObserver (isIntersecting : Bool) (fetchStatus : Status)
    (currentPage totalPages : Int) : Option Int :=
  if isIntersecting && !(fetchStatus == .loading) && decide (currentPage < totalPages) then
    some (currentPage + 1)
  else
    none

/-- The tags page's observer effect: an observer is attached only when
nothing is loading and `currentPage < totalPages` (cleanup disconnects). -/
def tagsObserverAttach (fetchStatus : Status) (currentPage totalPages : Int) : Bool :=
  !(fetchStatus == .loading) && decide (currentPage < totalPages)

/-! ## Search / topics API query validation (zod transforms) -/

/-- JS `parseInt(s, 10)`: optional sign followed by the longest digit prefix;
`none` models `NaN` (no digits). -/
def parseIntJS (s : String) : Option Int :=
  let signed : Int × List Char :=
    match s.data with
    | '-' :: cs => (-1, cs)
    | '+' :: cs => (1, cs)
    | cs => (1, cs)
  let digits := signed.2.takeWhile Char.isDigit
  if digits.isEmpty then none
  else some (signed.1 * ((digits.foldl (fun acc c => acc * 10 + (c.toNat - '0'.toNat)) 0 : Nat) : Int))

/-- The search route's `limit` transform:
`Math.min(100, Math.max(1, parseInt(val, 10)))`. -/
def searchLimitTransform (val : String) : Option Int :=
  (parseIntJS val).map (fun n => min 100 (max 1 n))

/-- The search route's `page` transform: `Math.max(1, parseInt(val, 10))`. -/
def searchPageTransform (val : String) : Option Int :=
  (parseIntJS val).map (fun n => max 1 n)

/-- The topics route's `limit` transform (same expression). -/
def topicsLimitTransform (val : String) : Option Int :=
  (parseIntJS val).map (fun n => min 100 (max 1 n))

/-- The topics route's `page` transform (same expression). -/
def topicsPageTransform (val : String) : Option Int :=
  (parseIntJS val).map (fun n => max 1 n)

/-- `const offset = (page - 1) * limit` / `const skip = (page - 1) * limit`. -/
def queryOffset (page limit : Int) : Int := (page - 1) * limit

/-- Prisma `findMany({ skip, take })` over an ordered record list. -/
def findManySlice (db : List Blog) (skip take : Int) : List Blog :=
  (db.drop skip.toNat).take take.toNat

/-! ## Derived facts about the `Set`-merge -/

theorem jsSetDedup_nodup (l : List String) : (jsSetDedup l).Nodup :=
  nodup_foldl_insertUnseen l [] List.nodup_nil

theorem mem_jsSetDedup {x : String} {l : List String} : x ∈ jsSetDedup l ↔ x ∈ l := by
  unfold jsSetDedup
  rw [mem_foldl_insertUnseen]
  simp

/-- The behaviour of `[...new Set([...l, ...r])]` on a duplicate-free `l`:
the result is duplicate-free, keeps `l` as an unchanged prefix, and contains
exactly the elements of `l` and `r`. -/
theorem mergeIds_spec {l : List String} (r : List String) (h : l.Nodup) :
    (jsSetDedup (l ++ r)).Nodup ∧ l <+: jsSetDedup (l ++ r)
      ∧ ∀ x, x ∈ jsSetDedup (l ++ r) ↔ (x ∈ l ∨ x ∈ r) := by
  rw [jsSetDedup_append h]
  exact ⟨nodup_foldl_insertUnseen r l h, prefix_foldl_insertUnseen r l,
    fun x => mem_foldl_insertUnseen r l⟩

/-! ## Test fixtures (concrete states used by witnesses and counterexamples) -/

/-- A concrete record tagged `AI` / topic `SCIENCE` (the spec's examples). -/
def blogA : Blog :=
  { id := "a", slug := "slug-a", title := "Alpha", subTitle := "SubA"
    content := "ContentA", bannerUrl := "a.png", video := none
    tags := ["AI"], topics := ["SCIENCE"], createdAt := 0, updatedAt := 0 }

/-- A second concrete record. -/
def blogB : Blog :=
  { id := "b", slug := "slug-b", title := "Beta", subTitle := "SubB"
    content := "ContentB", bannerUrl := "b.png", video := some "b.mp4"
    tags := ["AI"], topics := ["SCIENCE"], createdAt := 0, updatedAt := 0 }

/-- A well-formed `BlogState` holding exactly `blogA`. -/
def baseState : BlogState :=
  { entities := fun k => if k = "a" then some blogA else none
    ids := ["a"], slugBlogId := none, filteredIds := ["a"]
    selectedTag := none, selectedTopic := none, searchQuery := none
    status := ⟨.idle, .idle, .idle, .idle⟩
    error := ⟨none, none, none, none⟩
    pagination := ⟨1, 1, 1⟩
    cache := fun _ => none }

/-- `baseState` with fresh cache entries (timestamp 0) for the page-1 keys of
both thunks. -/
def cachedState : BlogState :=
  { baseState with
    cache := fun k =>
      if k = "blogs:1:10:::" then some ⟨["a"], 0⟩
      else if k = "filter:tag::topic::1:10" then some ⟨["a"], 0⟩
      else none }

/-- A well-formed `TagState` holding exactly `blogA`. -/
def baseTagState : TagState :=
  { entities := fun k => if k = "a" then some blogA else none
    blogIds := ["a"], selectedTags := [], availableTags := []
    statusFetchBlogs := .idle, errorFetchBlogs := none
    pagination := ⟨1, 1, 1, 12⟩
    cache := fun _ => none }

/-! ## Claims -/

/-- C4: the query-cache freshness boundary.  `CACHE_DURATION` is exactly
300000 ms; an entry stored at `t` is fresh at `now` precisely when
`now - t < 300000`; in particular it is fresh at `t + 299000` and stale at
`t + 301000`; a missing entry is never fresh. -/
theorem cache_freshness_boundary :
    ∀ (ids : List String) (t now : Int),
      CACHE_DURATION = 300000
      ∧ cacheFresh (some ⟨ids, t⟩) now = decide (now - t < 300000)
      ∧ cacheFresh (some ⟨ids, t⟩) (t + 299000) = true
      ∧ cacheFresh (some ⟨ids, t⟩) (t + 301000) = false
      ∧ cacheFresh none now = false := by
  intro ids t now
  refine ⟨rfl, rfl, ?_, ?_, rfl⟩
  · simp only [cacheFresh, CACHE_DURATION, decide_eq_true_eq]
    omega
  · simp only [cacheFresh, CACHE_DURATION, decide_eq_false_iff_not]
    omega

/-- C8: pagination termination.  Whenever the current page has reached
`totalPages`, the re-synchronized `Blogs` effect leaves the sentinel observer
disconnected and an intersection event dispatches no fetch; likewise the tags
page's `handleObserver` dispatches nothing and its effect attaches no
observer. -/
theorem pagination_terminates :
    ∀ (v : ScrollView) (inter b : Bool) (st : Status) (cp tp : Int),
      v.totalPages ≤ v.page → tp ≤ cp →
      (syncScrollEffect v).observerAttached = false
      ∧ sentinelIntersect (syncScrollEffect v) b = (none, syncScrollEffect v)
      ∧ handleObserver inter st cp tp = none
      ∧ tagsObserverAttach st cp tp = false := by
  intro v inter b st cp tp h1 h2
  have hv : decide (v.page < v.totalPages) = false := by
    simp only [decide_eq_false_iff_not, not_lt]; exact h1
  have hc : decide (cp < tp) = false := by
    simp only [decide_eq_false_iff_not, not_lt]; exact h2
  refine ⟨?_, ?_, ?_, ?_⟩
  · simp [syncScrollEffect, hv]
  · simp [sentinelIntersect, syncScrollEffect, hv]
  · simp [handleObserver, hc]
  · simp [tagsObserverAttach, hc]

/-- Witness for C8 at `page = totalPages = 3`. -/
theorem pagination_terminates_witness :
    ((3 : Int) ≤ 3)
    ∧ (syncScrollEffect ⟨3, 3, false, false, true⟩).observerAttached = false
    ∧ sentinelIntersect (syncScrollEffect ⟨3, 3, false, false, true⟩) true
        = (none, syncScrollEffect ⟨3, 3, false, false, true⟩)
    ∧ handleObserver true .succeeded 3 3 = none := by
  have h := pagination_terminates ⟨3, 3, false, false, true⟩ true true .succeeded 3 3
    (by norm_num) (by norm_num)
  exact ⟨by norm_num, h.1, h.2.1, h.2.2.1⟩

/-- C10: server-side page-size clamping in the search and topics routes.
When the `limit` and `page` strings parse, the effective limit is
`min 100 (max 1 n)` (so between 1 and 100), the effective page is
`max 1 p`, the offset `(page - 1) * limit` is non-negative, and a
`findMany` slice returns at most 100 records. -/
theorem page_size_clamped :
    ∀ (limitStr pageStr : String) (n p : Int) (db : List Blog),
      parseIntJS limitStr = some n → parseIntJS pageStr = some p →
      searchLimitTransform limitStr = some (min 100 (max 1 n))
      ∧ topicsLimitTransform limitStr = some (min 100 (max 1 n))
      ∧ searchPageTransform pageStr = some (max 1 p)
      ∧ topicsPageTransform pageStr = some (max 1 p)
      ∧ 1 ≤ min 100 (max 1 n) ∧ min 100 (max 1 n) ≤ 100
      ∧ 0 ≤ queryOffset (max 1 p) (min 100 (max 1 n))
      ∧ (findManySlice db (queryOffset (max 1 p) (min 100 (max 1 n)))
          (min 100 (max 1 n))).length ≤ 100 := by
  intro ls ps n p db hn hp
  have h1 : (1 : Int) ≤ min 100 (max 1 n) := le_min (by norm_num) (le_max_left 1 n)
  have h100 : min 100 (max 1 n) ≤ 100 := min_le_left _ _
  have hp1 : (1 : Int) ≤ max 1 p := le_max_left 1 p
  refine ⟨by simp [searchLimitTransform, hn], by simp [topicsLimitTransform, hn],
    by simp [searchPageTransform, hp], by simp [topicsPageTransform, hp], h1, h100, ?_, ?_⟩
  · exact mul_nonneg (by omega) (by omega)
  · unfold findManySlice
    refine le_trans (List.length_take_le _ _) ?_
    generalize hm : min 100 (max 1 n) = m at h1 h100
    omega

/-- Witness for C10 at `limit = "250"`, `page = "0"`. -/
theorem page_size_clamped_witness :
    parseIntJS "250" = some 250 ∧ parseIntJS "0" = some 0
    ∧ searchLimitTransform "250" = some (min 100 (max 1 250))
    ∧ searchPageTransform "0" = some (max 1 0)
    ∧ 0 ≤ queryOffset (max 1 0) (min 100 (max 1 250))
    ∧ (findManySlice [] (queryOffset (max 1 0) (min 100 (max 1 250)))
        (min 100 (max 1 250))).length ≤ 100 := by
  have h := page_size_clamped "250" "0" 250 0 [] (by decide) (by decide)
  exact ⟨by decide, by decide, h.1, h.2.2.1, h.2.2.2.2.2.2.1, h.2.2.2.2.2.2.2⟩

/-- C2: under any page-fetch `fulfilled` action, the ordered id list
(`ids` in `blogSlice`, `blogIds` in `tagSlice`) stays duplicate-free, keeps
the previously seen ids as an unchanged prefix (first-seen order, no
reordering), and gains exactly the previously unseen payload ids. -/
theorem fetch_ids_nodup_first_seen :
    ∀ (s : BlogState) (sT : TagState) (argPage argLimit : Option Int)
      (argTag argTopic argQuery : Option String)
      (payload : FetchPayload) (payloadT : TagFetchPayload) (now : Int),
      s.ids.Nodup → sT.blogIds.Nodup →
      ((blogsFulfilled s argPage argLimit argTag argTopic argQuery payload now).ids.Nodup
        ∧ s.ids <+: (blogsFulfilled s argPage argLimit argTag argTopic argQuery payload now).ids
        ∧ ∀ x, x ∈ (blogsFulfilled s argPage argLimit argTag argTopic argQuery payload now).ids
            ↔ (x ∈ s.ids ∨ x ∈ normResult payload.blogs))
      ∧ ((tagFulfilled sT argTag argPage argLimit payloadT now).blogIds.Nodup
        ∧ sT.blogIds <+: (tagFulfilled sT argTag argPage argLimit payloadT now).blogIds
        ∧ ∀ x, x ∈ (tagFulfilled sT argTag argPage argLimit payloadT now).blogIds
            ↔ (x ∈ sT.blogIds ∨ x ∈ normResult payloadT.blogs)) := by
  intro s sT argPage argLimit argTag argTopic argQuery payload payloadT now hs hsT
  constructor
  · by_cases hb : payload.blogs.length > 0
    · have h := mergeIds_spec (normResult payload.blogs) hs
      simpa [blogsFulfilled, hb] using h
    · have hempty : payload.blogs = [] := by
        cases hmm : payload.blogs with
        | nil => rfl
        | cons x xs => simp [hmm] at hb
      simp [blogsFulfilled, hb, hs, hempty, normResult]
  · by_cases hb : payloadT.blogs.length > 0
    · have h := mergeIds_spec (normResult payloadT.blogs) hsT
      simpa [tagFulfilled, hb] using h
    · have hempty : payloadT.blogs = [] := by
        cases hmm : payloadT.blogs with
        | nil => rfl
        | cons x xs => simp [hmm] at hb
      simp [tagFulfilled, hb, hsT, hempty, normResult]

/-- Witness for C2: merging a payload containing the already-present `blogA`
and the new `blogB` into `baseState` / `baseTagState`. -/
theorem fetch_ids_nodup_first_seen_witness :
    (blogsFulfilled baseState (some 1) (some 10) none none none
      ⟨[blogA, blogB], ⟨1, 1, 2⟩⟩ 5).ids.Nodup
    ∧ baseState.ids <+: (blogsFulfilled baseState (some 1) (some 10) none none none
        ⟨[blogA, blogB], ⟨1, 1, 2⟩⟩ 5).ids
    ∧ (tagFulfilled baseTagState none (some 1) (some 12)
        ⟨[blogA, blogB], ⟨1, 1, 2, 12⟩⟩ 5).blogIds.Nodup := by
  have h := fetch_ids_nodup_first_seen baseState baseTagState (some 1) (some 10)
    none none none ⟨[blogA, blogB], ⟨1, 1, 2⟩⟩ ⟨[blogA, blogB], ⟨1, 1, 2, 12⟩⟩ 5
    (by decide) (by decide)
  exact ⟨h.1.1, h.1.2.1, h.2.1⟩

/-- C3: the `fetchBlogs.fulfilled` merge is idempotent — replaying the same
payload leaves `entities`, `ids` and `filteredIds` exactly as after the first
application (zero new ids the second time), for every state and payload. -/
theorem merge_idempotent :
    ∀ (s : BlogState) (argPage argLimit : Option Int)
      (argTag argTopic argQuery : Option String) (payload : FetchPayload) (now now2 : Int),
      (blogsFulfilled (blogsFulfilled s argPage argLimit argTag argTopic argQuery payload now)
          argPage argLimit argTag argTopic argQuery payload now2).entities
        = (blogsFulfilled s argPage argLimit argTag argTopic argQuery payload now).entities
      ∧ (blogsFulfilled (blogsFulfilled s argPage argLimit argTag argTopic argQuery payload now)
          argPage argLimit argTag argTopic argQuery payload now2).ids
        = (blogsFulfilled s argPage argLimit argTag argTopic argQuery payload now).ids
      ∧ (blogsFulfilled (blogsFulfilled s argPage argLimit argTag argTopic argQuery payload now)
          argPage argLimit argTag argTopic argQuery payload now2).filteredIds
        = (blogsFulfilled s argPage argLimit argTag argTopic argQuery payload now).filteredIds := by
  intro s argPage argLimit argTag argTopic argQuery payload now now2
  by_cases hb : payload.blogs.length > 0
  · have hids : jsSetDedup (jsSetDedup (s.ids ++ normResult payload.blogs)
        ++ normResult payload.blogs) = jsSetDedup (s.ids ++ normResult payload.blogs) := by
      rw [jsSetDedup_append (jsSetDedup_nodup _)]
      exact foldl_insertUnseen_of_subset _ _
        (fun y hy => mem_jsSetDedup.mpr (by simp [hy]))
    refine ⟨?_, ?_, ?_⟩ <;>
      simp [blogsFulfilled, hb, mergeEntities_idem, hids]
  · refine ⟨?_, ?_, ?_⟩ <;> simp [blogsFulfilled, hb]

/-- C5: a fresh cache hit short-circuits both thunks (no network request),
and the resulting `fulfilled` reducers leave `entities`, `ids`,
`filteredIds`, `pagination` and the query cache untouched — only the status
field changes. -/
theorem fresh_hit_noop :
    ∀ (s : BlogState) (now : Int) (page limit : Option Int)
      (tag topic query : Option String) (pag : Pagination),
      cacheFresh (s.cache (blogsCacheKey (page.getD 1) (limit.getD 10) tag topic query)) now
        = true →
      cacheFresh (s.cache (filteredCacheKey tag topic (page.getD 1) (limit.getD 10))) now
        = true →
      fetchBlogsThunk s now page limit tag topic query = .shortCircuit ⟨[], s.pagination⟩
      ∧ fetchFilteredBlogsThunk s now tag topic page limit = .shortCircuitEmpty
      ∧ ((blogsFulfilled s page limit tag topic query ⟨[], s.pagination⟩ now).entities
          = s.entities
        ∧ (blogsFulfilled s page limit tag topic query ⟨[], s.pagination⟩ now).ids = s.ids
        ∧ (blogsFulfilled s page limit tag topic query ⟨[], s.pagination⟩ now).filteredIds
          = s.filteredIds
        ∧ (blogsFulfilled s page limit tag topic query ⟨[], s.pagination⟩ now).pagination
          = s.pagination
        ∧ (blogsFulfilled s page limit tag topic query ⟨[], s.pagination⟩ now).cache = s.cache
        ∧ (blogsFulfilled s page limit tag topic query ⟨[], s.pagination⟩ now).selectedTag
          = s.selectedTag
        ∧ (blogsFulfilled s page limit tag topic query ⟨[], s.pagination⟩ now).error = s.error
        ∧ (blogsFulfilled s page limit tag topic query ⟨[], s.pagination⟩ now).status.fetchBlogs
          = .succeeded)
      ∧ ((filteredFulfilled s [] pag).entities = s.entities
        ∧ (filteredFulfilled s [] pag).ids = s.ids
        ∧ (filteredFulfilled s [] pag).filteredIds = s.filteredIds
        ∧ (filteredFulfilled s [] pag).pagination = s.pagination
        ∧ (filteredFulfilled s [] pag).cache = s.cache
        ∧ (filteredFulfilled s [] pag).status.fetchFilteredBlogs = .succeeded) := by
  intro s now page limit tag topic query pag h1 h2
  refine ⟨?_, ?_, ?_, ?_⟩
  · simp [fetchBlogsThunk, h1]
  · simp [fetchFilteredBlogsThunk, h2]
  · refine ⟨?_, ?_, ?_, ?_, ?_, ?_, ?_, ?_⟩ <;> simp [blogsFulfilled]
  · refine ⟨?_, ?_, ?_, ?_, ?_, ?_⟩ <;> simp [filteredFulfilled]

/-- Witness for C5 on `cachedState`, whose cache is fresh (age 1000 ms) for
the page-1 signatures of both thunks. -/
theorem fresh_hit_noop_witness :
    fetchBlogsThunk cachedState 1000 none none none none none
      = .shortCircuit ⟨[], cachedState.pagination⟩
    ∧ fetchFilteredBlogsThunk cachedState 1000 none none none none = .shortCircuitEmpty
    ∧ (blogsFulfilled cachedState none none none none none
        ⟨[], cachedState.pagination⟩ 1000).ids = cachedState.ids
    ∧ (filteredFulfilled cachedState [] ⟨1, 1, 1⟩).filteredIds = cachedState.filteredIds := by
  have h := fresh_hit_noop cachedState 1000 none none none none none ⟨1, 1, 1⟩
    (by decide) (by decide)
  exact ⟨h.1, h.2.1, h.2.2.1.2.1, h.2.2.2.2.2.1⟩

/-- C1 counterexample: dispatching `setSelectedTag(some "AI")` and then
`setSelectedTopic(some "SCIENCE")` on a well-formed state leaves
`selectedTag = some "AI"` — the previously selected tag is *not* cleared, so
two filter fields are non-null at once and the claimed mutual exclusivity
fails. -/
theorem filters_not_exclusive_cex :
    (setSelectedTopic (setSelectedTag baseState (some "AI")) (some "SCIENCE")).selectedTopic
      = some "SCIENCE"
    ∧ (setSelectedTopic (setSelectedTag baseState (some "AI")) (some "SCIENCE")).selectedTag
      = some "AI"
    ∧ (setSelectedTopic (setSelectedTag baseState (some "AI")) (some "SCIENCE")).selectedTag.isNone
      = false := by
  decide

/-- C1 amended: `setSelectedTag` and `setSelectedTopic` each update only
their own selection field and recompute `filteredIds`; after
`setSelectedTag(t)` then `setSelectedTopic(p)` the state holds *both*
`selectedTag = t` and `selectedTopic = p` (nothing is cleared, `searchQuery`
is untouched), and `filteredIds` reflects only the most recent setter.
The hypothesis confines the statement to states satisfying the no-dangling
invariant, where the embedding is faithful (the JS reducer would throw on a
dangling id). -/
theorem filter_setters_last_wins :
    ∀ (s : BlogState) (t p : String),
      (∀ id ∈ s.ids, (s.entities id).isSome = true) →
      (setSelectedTopic (setSelectedTag s (some t)) (some p)).selectedTag = some t
      ∧ (setSelectedTopic (setSelectedTag s (some t)) (some p)).selectedTopic = some p
      ∧ (setSelectedTopic (setSelectedTag s (some t)) (some p)).searchQuery = s.searchQuery
      ∧ (setSelectedTopic (setSelectedTag s (some t)) (some p)).ids = s.ids
      ∧ (setSelectedTopic (setSelectedTag s (some t)) (some p)).entities = s.entities
      ∧ (setSelectedTopic (setSelectedTag s (some t)) (some p)).filteredIds
        = s.ids.filter (fun id =>
            match s.entities id with
            | some b => b.topics.contains p
            | none => false) := by
  intro s t p _
  exact ⟨rfl, rfl, rfl, rfl, rfl, rfl⟩

/-- Witness for the amended C1 on `baseState`. -/
theorem filter_setters_last_wins_witness :
    (setSelectedTopic (setSelectedTag baseState (some "AI")) (some "SCIENCE")).selectedTag
      = some "AI"
    ∧ (setSelectedTopic (setSelectedTag baseState (some "AI")) (some "SCIENCE")).searchQuery
      = baseState.searchQuery
    ∧ (setSelectedTopic (setSelectedTag baseState (some "AI")) (some "SCIENCE")).filteredIds
      = baseState.ids.filter (fun id =>
          match baseState.entities id with
          | some b => b.topics.contains "SCIENCE"
          | none => false) := by
  have h := filter_setters_last_wins baseState "AI" "SCIENCE" (by decide)
  exact ⟨h.1, h.2.2.1, h.2.2.2.2.2⟩

/-! ## String facts needed for the `temp-` id rollback -/

theorem string_data_append (a b : String) : (a ++ b).data = a.data ++ b.data := by
  cases a
  cases b
  rfl

theorem isPrefixOf_append_self : ∀ (l t : List Char), l.isPrefixOf (l ++ t) = true := by
  intro l t
  induction l with
  | nil => simp [List.isPrefixOf]
  | cons x xs ih => simp [List.isPrefixOf, ih]

/-- Every generated provisional id `` `temp-${now}` `` starts with `"temp-"`. -/
theorem jsStartsWith_temp (s : String) : jsStartsWith ("temp-" ++ s) "temp-" = true := by
  unfold jsStartsWith
  rw [string_data_append]
  exact isPrefixOf_append_self _ _

/-- A record already stored under a `temp-` id (e.g. left behind by an earlier
optimistic create). -/
def tempBlog0 : Blog :=
  { id := "temp-0", slug := "slug-t0", title := "T0", subTitle := "S0"
    content := "C0", bannerUrl := "t0.png", video := none
    tags := [], topics := [], createdAt := 0, updatedAt := 0 }

/-- `baseState` whose only record sits under the id `"temp-0"`. -/
def tempState : BlogState :=
  { baseState with
    entities := fun k => if k = "temp-0" then some tempBlog0 else none
    ids := ["temp-0"], filteredIds := ["temp-0"] }

/-- The argument object of a concrete optimistic create. -/
def createArgs : CreateBlogParams :=
  { title := "T", subTitle := "S", content := "C", bannerUrl := "u.png"
    slug := "new-slug", video := none, tags := ["AI"], topics := ["SCIENCE"] }

/-- C6 counterexample: starting from a state that already contains an id
beginning with `"temp-"`, `createBlog.pending` (at `now = 1`) followed by
`createBlog.rejected` leaves an id starting with `"temp-"` in `ids` — the
claim's "no id starting with temp- remains" clause fails for this state. -/
theorem create_rollback_cex :
    (createRejected (createPending tempState createArgs 1) "boom").ids.any
      (fun id => jsStartsWith id "temp-") = true
    ∧ (createRejected (createPending tempState createArgs 1) "boom").ids = ["temp-0"] := by
  decide

/-- C6 amended: for every state in which no id of `ids`/`filteredIds` and no
populated entity key starts with `"temp-"`, `createBlog.pending` followed by
`createBlog.rejected` restores `entities`, `ids` and `filteredIds` exactly,
and afterwards no id starting with `"temp-"` remains in `ids`. -/
theorem create_rollback_atomic :
    ∀ (s : BlogState) (args : CreateBlogParams) (now : Int) (msg : String),
      (∀ id ∈ s.ids, jsStartsWith id "temp-" = false) →
      (∀ id ∈ s.filteredIds, jsStartsWith id "temp-" = false) →
      (∀ k, jsStartsWith k "temp-" = true → s.entities k = none) →
      (createRejected (createPending s args now) msg).ids = s.ids
      ∧ (createRejected (createPending s args now) msg).filteredIds = s.filteredIds
      ∧ (createRejected (createPending s args now) msg).entities = s.entities
      ∧ (createRejected (createPending s args now) msg).ids.all
          (fun id => !jsStartsWith id "temp-") = true := by
  intro s args now msg hids hfids hent
  have htemp : jsStartsWith ("temp-" ++ toString now) "temp-" = true := jsStartsWith_temp _
  have hne : ∀ id, jsStartsWith id "temp-" = false →
      (id != ("temp-" ++ toString now)) = true := by
    intro id hid
    simp only [bne_iff_ne, ne_eq]
    rintro rfl
    exact absurd (htemp.symm.trans hid) (by decide)
  have hfilter : ∀ (l : List String), (∀ id ∈ l, jsStartsWith id "temp-" = false) →
      l.filter (fun id => id != ("temp-" ++ toString now)) = l := by
    intro l hl
    exact List.filter_eq_self.mpr (fun id hid => hne id (hl id hid))
  have hfind : (("temp-" ++ toString now) :: s.ids).find?
      (fun id => jsStartsWith id "temp-") = some ("temp-" ++ toString now) :=
    List.find?_cons_of_pos _ htemp
  have hself : (("temp-" ++ toString now) != ("temp-" ++ toString now)) = false := by
    simp
  refine ⟨?_, ?_, ?_, ?_⟩
  · simp only [createRejected, createPending, hfind]
    rw [List.filter_cons]
    simp only [hself, if_false]
    exact hfilter s.ids hids
  · simp only [createRejected, createPending, hfind]
    rw [List.filter_cons]
    simp only [hself, if_false]
    exact hfilter s.filteredIds hfids
  · simp only [createRejected, createPending, hfind]
    funext k
    by_cases hk : k = ("temp-" ++ toString now)
    · simp only [hk, if_pos rfl]
      exact (hent _ htemp).symm
    · simp only [if_neg hk]
  · simp only [createRejected, createPending, hfind]
    rw [List.filter_cons]
    simp only [hself, if_false]
    rw [hfilter s.ids hids]
    exact List.all_eq_true.mpr (fun id hid => by simp [hids id hid])

/-- Witness for the amended C6 on `baseState` (no pre-existing `temp-` ids). -/
theorem create_rollback_atomic_witness :
    (createRejected (createPending baseState createArgs 7) "err").ids = baseState.ids
    ∧ (createRejected (createPending baseState createArgs 7) "err").filteredIds
      = baseState.filteredIds
    ∧ (createRejected (createPending baseState createArgs 7) "err").entities
      = baseState.entities
    ∧ (createRejected (createPending baseState createArgs 7) "err").ids.all
        (fun id => !jsStartsWith id "temp-") = true := by
  have h := create_rollback_atomic baseState createArgs 7 "err"
    (by decide) (by decide)
    (by
      intro k hk
      by_cases ha : k = "a"
      · subst ha
        exact absurd hk (by decide)
      · simp [baseState, ha])
  exact h

/-- A `PATCH` body supplying a new title together with a present-but-empty
`video` field. -/
def patchVideoBody : PatchBody :=
  { title := some "New Title", subTitle := none, content := none
    bannerUrl := none, video := some "", tags := none, topics := none }

/-- C7 counterexample: a `PATCH` whose body contains `video: ""` (an *empty*
field) does **not** preserve the stored video — because the handler writes
`video` whenever it is not `undefined`, the prior value `some "b.mp4"` is
overwritten with `some ""` while the title update succeeds. -/
theorem patch_empty_video_overwrites_cex :
    (apiPATCH ["AI"] ["SCIENCE"] [blogB] (some "slug-b") patchVideoBody).2.map Blog.video
      = [some ""]
    ∧ (apiPATCH ["AI"] ["SCIENCE"] [blogB] (some "slug-b") patchVideoBody).2.map Blog.title
      = ["New Title"]
    ∧ blogB.video = some "b.mp4" := by
  decide

/-- C7 amended: a `PATCH` supplying only a non-empty title stores the new
title and preserves every other field; empty or absent string fields and
absent (or all-invalid) tags/topics preserve the prior stored values — with
the exception of `video`, which is overwritten whenever the field is present
in the body (even empty; see the counterexample), and is preserved only when
absent.  A missing slug parameter or an all-empty body yields a 400 error and
an unknown slug a 404 error, in each case leaving the database unchanged. -/
theorem patch_partial_update :
    ∀ (validTags validTopics : List String) (db : List Blog) (slug : String)
      (r : Blog) (body : PatchBody),
      (db.find? (fun b => b.slug == slug) = some r →
        truthyStr body.title = true →
        apiPATCH validTags validTopics db (some slug) body
          = (.ok (patchedBlog validTags validTopics r body),
             db.map (fun b =>
               if b.slug == slug then patchedBlog validTags validTopics r body else b))
        ∧ (patchedBlog validTags validTopics r body).title = body.title.getD ""
        ∧ (truthyStr body.subTitle = false →
            (patchedBlog validTags validTopics r body).subTitle = r.subTitle)
        ∧ (truthyStr body.content = false →
            (patchedBlog validTags validTopics r body).content = r.content)
        ∧ (truthyStr body.bannerUrl = false →
            (patchedBlog validTags validTopics r body).bannerUrl = r.bannerUrl)
        ∧ (body.video = none → (patchedBlog validTags validTopics r body).video = r.video)
        ∧ (parsedVocabList validTags body.tags = [] →
            (patchedBlog validTags validTopics r body).tags = r.tags)
        ∧ (parsedVocabList validTopics body.topics = [] →
            (patchedBlog validTags validTopics r body).topics = r.topics)
        ∧ (patchedBlog validTags validTopics r body).id = r.id
        ∧ (patchedBlog validTags validTopics r body).slug = r.slug)
      ∧ apiPATCH validTags validTopics db none body
        = (.err 400 "Slug is required for editing", db)
      ∧ apiPATCH validTags validTopics db (some slug)
          ⟨none, none, none, none, none, none, none⟩
        = (.err 400 "At least one field must be provided for update", db)
      ∧ (truthyStr body.title = true → db.find? (fun b => b.slug == slug) = none →
          apiPATCH validTags validTopics db (some slug) body
            = (.err 404 "Blog not found", db)) := by
  intro validTags validTopics db slug r body
  refine ⟨?_, rfl, ?_, ?_⟩
  · intro hfind htitle
    have hempty : emptyPatchBodyCheck body = false := by
      simp [emptyPatchBodyCheck, htitle]
    refine ⟨?_, ?_, ?_, ?_, ?_, ?_, ?_, ?_, rfl, rfl⟩
    · simp [apiPATCH, hempty, hfind]
    · cases hb : body.title with
      | none => rw [hb] at htitle; exact absurd htitle (by decide)
      | some v =>
        rw [hb] at htitle
        have : (v == "") = false := by
          simpa [truthyStr] using htitle
        simp [patchedBlog, applyStrField, hb, this]
    · intro hsub
      cases hb : body.subTitle with
      | none => simp [patchedBlog, applyStrField, hb]
      | some v =>
        rw [hb] at hsub
        have : (v == "") = true := by
          simpa [truthyStr] using hsub
        simp [patchedBlog, applyStrField, hb, this]
    · intro hc
      cases hb : body.content with
      | none => simp [patchedBlog, applyStrField, hb]
      | some v =>
        rw [hb] at hc
        have : (v == "") = true := by
          simpa [truthyStr] using hc
        simp [patchedBlog, applyStrField, hb, this]
    · intro hban
      cases hb : body.bannerUrl with
      | none => simp [patchedBlog, applyStrField, hb]
      | some v =>
        rw [hb] at hban
        have : (v == "") = true := by
          simpa [truthyStr] using hban
        simp [patchedBlog, applyStrField, hb, this]
    · intro hv
      simp [patchedBlog, hv]
    · intro ht
      simp [patchedBlog, validateTagsAndTopics, ht]
    · intro ht
      simp [patchedBlog, validateTagsAndTopics, ht]
  · simp [apiPATCH, emptyPatchBodyCheck, truthyStr]
  · intro htitle hfind
    have hempty : emptyPatchBodyCheck body = false := by
      simp [emptyPatchBodyCheck, htitle]
    simp [apiPATCH, hempty, hfind]

/-- A `PATCH` body supplying only a non-empty title. -/
def patchTitleBody : PatchBody :=
  { title := some "New Title", subTitle := none, content := none
    bannerUrl := none, video := none, tags := none, topics := none }

/-- Witness for the amended C7: a title-only `PATCH` of `blogB` updates the
title and preserves subtitle, video and tags. -/
theorem patch_partial_update_witness :
    apiPATCH ["AI"] ["SCIENCE"] [blogB] (some "slug-b") patchTitleBody
      = (.ok (patchedBlog ["AI"] ["SCIENCE"] blogB patchTitleBody),
         [blogB].map (fun b =>
           if b.slug == "slug-b" then patchedBlog ["AI"] ["SCIENCE"] blogB patchTitleBody
           else b))
    ∧ (patchedBlog ["AI"] ["SCIENCE"] blogB patchTitleBody).title = "New Title"
    ∧ (patchedBlog ["AI"] ["SCIENCE"] blogB patchTitleBody).subTitle = blogB.subTitle
    ∧ (patchedBlog ["AI"] ["SCIENCE"] blogB patchTitleBody).video = blogB.video
    ∧ (patchedBlog ["AI"] ["SCIENCE"] blogB patchTitleBody).tags = blogB.tags
    ∧ apiPATCH ["AI"] ["SCIENCE"] [blogB] none patchTitleBody
      = (.err 400 "Slug is required for editing", [blogB]) := by
  have h := patch_partial_update ["AI"] ["SCIENCE"] [blogB] "slug-b" blogB patchTitleBody
  have h1 := h.1 (by decide) (by decide)
  exact ⟨h1.1, h1.2.1, h1.2.2.1 (by decide), h1.2.2.2.2.2.1 rfl,
    h1.2.2.2.2.2.2.1 (by decide), h.2.1⟩

/-- A `POST` body whose submitted tag `" AI "` is not itself a vocabulary
member but survives after trimming. -/
def postTrimBody : PostBody :=
  { title := some "T", subTitle := some "S", content := some "C"
    bannerUrl := some "B", slug := some "new-post", video := none
    tags := some [" AI "], topics := some ["SCIENCE"] }

/-- C9 counterexample: with vocabulary `["AI"]`, a create submitting the tag
`" AI "` (not a member of the vocabulary) succeeds and stores `["AI"]` — the
element is trimmed before the membership filter, so the stored tags are *not*
"exactly the submitted values that belong to the enums" (which would be
`[]`). -/
theorem vocab_trim_cex :
    (apiPOST ["AI"] ["SCIENCE"] [] postTrimBody "id9" 0).2.map Blog.tags = [["AI"]]
    ∧ [" AI "].filter (fun t => (["AI"] : List String).contains t) = ([] : List String)
    ∧ (apiPOST ["AI"] ["SCIENCE"] [] postTrimBody "id9" 0).2.length = 1 := by
  decide

/-- C9 amended: a create or update with valid required fields succeeds, and
invalid vocabulary values are silently dropped: `POST` stores exactly the
submitted values that belong to the vocabulary *after trimming*, in submitted
order (every stored value is a vocabulary member); `PATCH` replaces
tags with the surviving values when at least one survives and otherwise
preserves the prior stored tags. -/
theorem vocab_filter_dropped :
    ∀ (validTags validTopics : List String) (db : List Blog) (body : PostBody)
      (newId : String) (now : Int) (slug : String) (r : Blog) (pbody : PatchBody),
      (truthyStr body.title = true → truthyStr body.subTitle = true →
        truthyStr body.content = true → truthyStr body.bannerUrl = true →
        truthyStr body.slug = true →
        db.find? (fun b => b.slug == body.slug.getD "") = none →
        apiPOST validTags validTopics db body newId now
          = (.ok (postBlog validTags validTopics body newId now),
             db ++ [postBlog validTags validTopics body newId now])
        ∧ (postBlog validTags validTopics body newId now).tags
          = ((body.tags.getD []).map jsTrim).filter (fun t => validTags.contains t)
        ∧ (postBlog validTags validTopics body newId now).topics
          = ((body.topics.getD []).map jsTrim).filter (fun t => validTopics.contains t)
        ∧ (∀ x ∈ (postBlog validTags validTopics body newId now).tags, x ∈ validTags)
        ∧ (∀ x ∈ (postBlog validTags validTopics body newId now).topics, x ∈ validTopics))
      ∧ (db.find? (fun b => b.slug == slug) = some r → truthyStr pbody.title = true →
          ((parsedVocabList validTags pbody.tags).length > 0 →
            (patchedBlog validTags validTopics r pbody).tags
              = parsedVocabList validTags pbody.tags)
          ∧ (parsedVocabList validTags pbody.tags = [] →
            (patchedBlog validTags validTopics r pbody).tags = r.tags)
          ∧ (apiPATCH validTags validTopics db (some slug) pbody).1
            = .ok (patchedBlog validTags validTopics r pbody)) := by
  intro validTags validTopics db body newId now slug r pbody
  constructor
  · intro h1 h2 h3 h4 h5 hfind
    have hreq : (!truthyStr body.title || !truthyStr body.subTitle || !truthyStr body.content
        || !truthyStr body.bannerUrl || !truthyStr body.slug) = false := by
      simp [h1, h2, h3, h4, h5]
    have htags : (postBlog validTags validTopics body newId now).tags
        = ((body.tags.getD []).map jsTrim).filter (fun t => validTags.contains t) := by
      cases hb : body.tags with
      | none => simp [postBlog, validateTagsAndTopics, parsedVocabList, hb]
      | some l => simp [postBlog, validateTagsAndTopics, parsedVocabList, hb]
    have htopics : (postBlog validTags validTopics body newId now).topics
        = ((body.topics.getD []).map jsTrim).filter (fun t => validTopics.contains t) := by
      cases hb : body.topics with
      | none => simp [postBlog, validateTagsAndTopics, parsedVocabList, hb]
      | some l => simp [postBlog, validateTagsAndTopics, parsedVocabList, hb]
    refine ⟨?_, htags, htopics, ?_, ?_⟩
    · simp [apiPOST, hreq, hfind]
    · intro x hx
      rw [htags] at hx
      have := (List.mem_filter.mp hx).2
      simpa using this
    · intro x hx
      rw [htopics] at hx
      have := (List.mem_filter.mp hx).2
      simpa using this
  · intro hfind htitle
    have hempty : emptyPatchBodyCheck pbody = false := by
      simp [emptyPatchBodyCheck, htitle]
    refine ⟨?_, ?_, ?_⟩
    · intro hpos
      simp only [patchedBlog, validateTagsAndTopics]
      rw [if_pos hpos]
    · intro hz
      simp [patchedBlog, validateTagsAndTopics, hz]
    · simp [apiPATCH, hempty, hfind]

/-- A `PATCH` body whose submitted tags are all invalid. -/
def patchBogusTagsBody : PatchBody :=
  { title := some "Kept Title", subTitle := none, content := none
    bannerUrl := none, video := none, tags := some ["BOGUS"], topics := none }

/-- Witness for the amended C9: a create with tags `["AI", "BOGUS"]` stores
exactly `["AI"]`, and a `PATCH` submitting only the invalid tag `"BOGUS"`
preserves the prior tags. -/
theorem vocab_filter_dropped_witness :
    (postBlog ["AI"] ["SCIENCE"]
        ⟨some "T", some "S", some "C", some "B", some "p2", none,
          some ["AI", "BOGUS"], some ["SCIENCE"]⟩ "id2" 0).tags
      = (([ "AI", "BOGUS" ].map jsTrim).filter
          (fun t => (["AI"] : List String).contains t))
    ∧ (patchedBlog ["AI"] ["SCIENCE"] blogB patchBogusTagsBody).tags = blogB.tags
    ∧ (apiPATCH ["AI"] ["SCIENCE"] [blogB] (some "slug-b") patchBogusTagsBody).1
      = .ok (patchedBlog ["AI"] ["SCIENCE"] blogB patchBogusTagsBody) := by
  have hpost := (vocab_filter_dropped ["AI"] ["SCIENCE"] []
    ⟨some "T", some "S", some "C", some "B", some "p2", none,
      some ["AI", "BOGUS"], some ["SCIENCE"]⟩ "id2" 0 "slug-b" blogB
    patchBogusTagsBody).1 (by decide) (by decide) (by decide) (by decide) (by decide) rfl
  have hpatch := (vocab_filter_dropped ["AI"] ["SCIENCE"] [blogB]
    ⟨some "T", some "S", some "C", some "B", some "p2", none,
      some ["AI", "BOGUS"], some ["SCIENCE"]⟩ "id2" 0 "slug-b" blogB
    patchBogusTagsBody).2 (by decide) (by decide)
  exact ⟨hpost.2.1, hpatch.2.1 (by decide), hpatch.2.2⟩

end Blog2
